import Mathlib

/-!
# Verification of the mcpgate gateway core

Shallow embedding of the mcpgate sources (`src/config.rs`, `src/gate.rs`,
`src/main.rs`) and proofs about the embedded definitions.
-/

set_option maxHeartbeats 1000000

namespace Mcpgate

/-! ## JSON value model

JSON values as produced by `serde_json` / serde's private `Content` tree when
the input is JSON: booleans, numbers, strings, arrays, objects and null
(serde's `Content::Unit`).  Objects are ordered association lists, matching
serde's `Content::Map(Vec<(Content, Content)>)`. -/

inductive Json where
  | null
  | bool (b : Bool)
  | num (n : Int)
  | str (s : String)
  | arr (items : List Json)
  | obj (fields : List (String × Json))

/-- serde `Content::as_str`: only string-like contents yield a string; for
JSON input the byte-content cases cannot arise, so exactly `Json.str`. -/
def Json.asStr : Json → Option String
  | .str s => some s
  | _ => none

/-- The `Unexpected` category name reported by `crate::into(&content)` in
`McpServerConfig::deserialize` (src/serde.rs maps `Content` to
`serde::de::Unexpected`); for JSON inputs only these cases arise. -/
def Json.unexpectedKind : Json → String
  | .null => "unit"
  | .bool _ => "boolean"
  | .num _ => "integer"
  | .str _ => "string"
  | .arr _ => "sequence"
  | .obj _ => "map"

/-! ## Config data model (src/config.rs)

`Arc<str>` / `PathBuf` are modelled as `String`, `HashMap<String, String>`
as an ordered association list. -/

structure McpSseConfig where
  name : Option String
  description : Option String
  url : String
deriving DecidableEq, Repr

structure McpStdioConfig where
  name : Option String
  description : Option String
  command : String
  args : List String
  cwd : Option String
  env : Option (List (String × String))
deriving DecidableEq, Repr

structure McpStreamableConfig where
  name : Option String
  description : Option String
  url : String
deriving DecidableEq, Repr

inductive McpServerConfig where
  | sse (config : McpSseConfig)
  | stdio (config : McpStdioConfig)
  | streamable (config : McpStreamableConfig)
deriving DecidableEq, Repr

/-- `McpServerConfig::name` (src/config.rs). -/
def McpServerConfig.name : McpServerConfig → Option String
  | .sse c => c.name
  | .stdio c => c.name
  | .streamable c => c.name

/-- `McpServerConfig::description` (src/config.rs). -/
def McpServerConfig.description : McpServerConfig → Option String
  | .sse c => c.description
  | .stdio c => c.description
  | .streamable c => c.description

/-- `McpServerConfig::to_sse` (src/config.rs): rebuild as an `Sse` entry
pointing at `url`, preserving `name` and `description`. -/
def McpServerConfig.toSse (c : McpServerConfig) (url : String) : McpServerConfig :=
  .sse { name := c.name, description := c.description, url := url }

/-- `McpServerConfig::to_streamable` (src/config.rs). -/
def McpServerConfig.toStreamable (c : McpServerConfig) (url : String) : McpServerConfig :=
  .streamable { name := c.name, description := c.description, url := url }

/-! ## ServerEntry deserialization (src/config.rs, `impl Deserialize for McpServerConfig`) -/

/-- Structured deserialization errors, mirroring the constructors of
`serde::de::Error` used by the source (`missing_field`, `invalid_type`,
`unknown_variant`).  `unknownVariant` carries the tag and the `VARIANTS`
slice exactly as `de::Error::unknown_variant(typ, VARIANTS)` does. -/
inductive DeError where
  | missingField (field : String)
  | invalidType (found : String) (expected : String)
  | unknownVariant (tag : String) (variants : List String)
deriving DecidableEq, Repr

/-- First value stored under key `k` in a JSON object's field list
(serde map access; config maps come from `HashMap`, keys unique). -/
def getField (fields : List (String × Json)) (k : String) : Option Json :=
  (fields.find? (fun p => p.1 == k)).map (·.2)

/-- Deserialize a JSON value as a `String` (also used for `PathBuf`). -/
def deString : Json → Except DeError String
  | .str s => .ok s
  | v => .error (.invalidType v.unexpectedKind "a string")

/-- Deserialize an `Option<String>` struct field: missing or `null` is
`None` (serde treats `Option` fields as implicitly defaulted). -/
def deOptStringField (fields : List (String × Json)) (k : String) :
    Except DeError (Option String) :=
  match getField fields k with
  | none => .ok none
  | some .null => .ok none
  | some (.str s) => .ok (some s)
  | some v => .error (.invalidType v.unexpectedKind "a string")

/-- Deserialize a required `String` struct field. -/
def deStringField (fields : List (String × Json)) (k : String) :
    Except DeError String :=
  match getField fields k with
  | none => .error (.missingField k)
  | some v => deString v

/-- Deserialize a `Vec<String>`. -/
def deStringList : Json → Except DeError (List String)
  | .arr items => items.mapM deString
  | v => .error (.invalidType v.unexpectedKind "a sequence")

/-- Deserialize a `HashMap<String, String>`. -/
def deStringMap : Json → Except DeError (List (String × String))
  | .obj fields => fields.mapM (fun p => (deString p.2).map (fun v => (p.1, v)))
  | v => .error (.invalidType v.unexpectedKind "a map")

/-- Deserialize an `Option<HashMap<String, String>>` struct field. -/
def deOptStringMapField (fields : List (String × Json)) (k : String) :
    Except DeError (Option (List (String × String))) :=
  match getField fields k with
  | none => .ok none
  | some .null => .ok none
  | some v => (deStringMap v).map some

/-- Derived `Deserialize` for `McpSseConfig`'s payload (fields of the object
after the `type` tag has been removed). -/
def deserializeSse (fields : List (String × Json)) : Except DeError McpSseConfig := do
  let name ← deOptStringField fields "name"
  let description ← deOptStringField fields "description"
  let url ← deStringField fields "url"
  pure { name, description, url }

/-- Derived `Deserialize` for `McpStreamableConfig`'s payload. -/
def deserializeStreamable (fields : List (String × Json)) :
    Except DeError McpStreamableConfig := do
  let name ← deOptStringField fields "name"
  let description ← deOptStringField fields "description"
  let url ← deStringField fields "url"
  pure { name, description, url }

/-- Derived `Deserialize` for `McpStdioConfig`'s payload. -/
def deserializeStdio (fields : List (String × Json)) : Except DeError McpStdioConfig := do
  let name ← deOptStringField fields "name"
  let description ← deOptStringField fields "description"
  let command ← deStringField fields "command"
  let args ← match getField fields "args" with
    | none => .error (.missingField "args")
    | some v => deStringList v
  let cwd ← deOptStringField fields "cwd"
  let env ← deOptStringMapField fields "env"
  pure { name, description, command, args, cwd, env }

/-- The first `type` entry of the object, as extracted by the
`map.iter().enumerate().filter(...).next()` pipeline in
`McpServerConfig::deserialize`. -/
def findTypeField (fields : List (String × Json)) : Option Json :=
  (fields.find? (fun p => p.1 == "type")).map (·.2)

/-- Removal of the first `type` entry (`map.remove(i)` at the found index);
an object without a `type` key is left unchanged. -/
def removeTypeField : List (String × Json) → List (String × Json)
  | [] => []
  | p :: rest => if p.1 == "type" then rest else p :: removeTypeField rest

/-- The `VARIANTS` slice of `McpServerConfig::deserialize`. -/
def VARIANTS : List String := ["sse", "stdio", "streamable", "streamableHttp"]

/-- `impl Deserialize for McpServerConfig` (src/config.rs lines 248-293):
two-pass strategy — parse to a generic value, require a map, extract and
remove the `type` field, take its string value (defaulting to `""` when the
field is absent or not a string), then dispatch on the tag. -/
def McpServerConfig.deserialize (j : Json) : Except DeError McpServerConfig :=
  match j with
  | .obj fields =>
    let typVal := findTypeField fields
    let rest := removeTypeField fields
    let typ := ((typVal.bind Json.asStr).getD "")
    match typ with
    | "sse" => (deserializeSse rest).map .sse
    | "streamable" => (deserializeStreamable rest).map .streamable
    | "streamableHttp" => (deserializeStreamable rest).map .streamable
    | "stdio" => (deserializeStdio rest).map .stdio
    | "" => (deserializeStdio rest).map .stdio
    | t => .error (.unknownVariant t VARIANTS)
  | other => .error (.invalidType other.unexpectedKind "map")

/-! ## ServerEntry serialization (src/config.rs, derived `Serialize`)

`name` and `description` carry `#[serde(skip_serializing_if = "Option::is_none")]`
and are omitted when `None`; `McpStdioConfig.cwd` and `.env` do **not**, and
serialize as JSON `null` when `None`.  The enum is internally tagged
(`#[serde(tag = "type")]`): the tag is emitted first, then the variant's
fields flat in the same object. -/

/-- A `skip_serializing_if = "Option::is_none"` string field. -/
def serOptField (k : String) : Option String → List (String × Json)
  | some s => [(k, .str s)]
  | none => []

/-- Derived `Serialize` for `McpSseConfig` (field list of the object). -/
def serializeSse (c : McpSseConfig) : List (String × Json) :=
  serOptField "name" c.name ++ serOptField "description" c.description ++
    [("url", .str c.url)]

/-- Derived `Serialize` for `McpStreamableConfig`. -/
def serializeStreamable (c : McpStreamableConfig) : List (String × Json) :=
  serOptField "name" c.name ++ serOptField "description" c.description ++
    [("url", .str c.url)]

/-- Derived `Serialize` for `McpStdioConfig`: `cwd` and `env` have no
`skip_serializing_if`, so `None` serializes as `null`. -/
def serializeStdio (c : McpStdioConfig) : List (String × Json) :=
  serOptField "name" c.name ++ serOptField "description" c.description ++
    [("command", .str c.command),
     ("args", .arr (c.args.map .str)),
     ("cwd", match c.cwd with | some p => .str p | none => .null),
     ("env", match c.env with
       | some e => .obj (e.map (fun p => (p.1, .str p.2)))
       | none => .null)]

/-- Derived `Serialize` for `McpServerConfig` with `#[serde(tag = "type")]`:
tag values `sse`, `stdio`, `streamableHttp` per the `rename` attributes. -/
def McpServerConfig.serializeFields : McpServerConfig → List (String × Json)
  | .sse c => ("type", .str "sse") :: serializeSse c
  | .stdio c => ("type", .str "stdio") :: serializeStdio c
  | .streamable c => ("type", .str "streamableHttp") :: serializeStreamable c

/-- Full serialization to a JSON value. -/
def McpServerConfig.serialize (c : McpServerConfig) : Json :=
  .obj c.serializeFields

/-- Whether a serialized object contains a key. -/
def hasKey (fields : List (String × Json)) (k : String) : Bool :=
  fields.any (fun p => p.1 == k)

/-! ## Gate (src/gate.rs)

The Gate holds a shared `McpServerConfig` and a write-once-intended slot
`client: RwLock<Option<Arc<RunningService<..>>>>`.  Requests are handled by
`Gate::handle_request`.  The upstream client handle (rmcp's
`RunningService`) is modelled by its observable behavior: its reported
`peer_info`, the per-operation results, and the page sequences its
paginated list operations walk. -/

/-- rmcp `Implementation` (name/version pair inside `InitializeResult`). -/
structure PeerImplementation where
  name : String
  version : String
deriving DecidableEq, Repr

/-- rmcp `InitializeResult` / `ServerInfo`, reduced to the parts the Gate
forwards.  `Default::default()` is the empty record. -/
structure InitializeResultModel where
  serverInfo : PeerImplementation
deriving DecidableEq, Repr

/-- `InitializeResult::default()` as used by `unwrap_or_default()`. -/
def defaultInitializeResult : InitializeResultModel :=
  { serverInfo := { name := "", version := "" } }

/-- One page returned by the upstream for a paginated list call: the items
of the page and the `next_cursor` it reports. -/
structure Page (α : Type) where
  items : List α
  nextCursor : Option String
deriving DecidableEq, Repr

/-- Modelled from the spec: rmcp's `list_all_tools` / `list_all_prompts` /
`list_all_resources` / `list_all_resource_templates` (the crate's source is
not part of this repository).  "Paginated list operations MUST follow every
`next_cursor` the upstream returns and concatenate the partial results into
a single response."  The upstream's behavior is given as the sequence of
pages it returns on successive calls; aggregation stops after the first
page whose `next_cursor` is absent. -/
def listAll {α : Type} : List (Page α) → List α
  | [] => []
  | p :: rest =>
    match p.nextCursor with
    | none => p.items
    | some _ => p.items ++ listAll rest

/-- A live upstream client (rmcp `RunningService<RoleClient, _>`), modelled
by its observable responses.  `id` tracks identity so that distinct
clients produced by successive factory calls can be told apart.
Per-operation results are `Except`-valued: `error` is an rmcp
`ServiceError` rendered to its display string. -/
structure UpstreamClient where
  id : Nat
  peerInfo : Option InitializeResultModel
  completeResult : Json → Except String Json
  setLevelResult : Json → Except String Unit
  getPromptResult : Json → Except String Json
  readResourceResult : Json → Except String Json
  subscribeResult : Json → Except String Unit
  unsubscribeResult : Json → Except String Unit
  callToolResult : Json → Except String Json
  toolPages : List (Page String)
  promptPages : List (Page String)
  resourcePages : List (Page String)
  resourceTemplatePages : List (Page String)

/-- rmcp `ClientRequest`: the inbound requests `Gate::handle_request`
matches on.  Params of verbatim-forwarded requests are opaque JSON. -/
inductive ClientRequest where
  | initializeRequest
  | pingRequest
  | completeRequest (params : Json)
  | setLevelRequest (params : Json)
  | getPromptRequest (params : Json)
  | listPromptsRequest
  | listResourcesRequest
  | listResourceTemplatesRequest
  | readResourceRequest (params : Json)
  | subscribeRequest (params : Json)
  | unsubscribeRequest (params : Json)
  | callToolRequest (params : Json)
  | listToolsRequest

/-- rmcp `ServerResult`: the Gate's reply payloads. -/
inductive ServerResult where
  | initializeResult (res : InitializeResultModel)
  | emptyResult
  | completeResult (res : Json)
  | getPromptResult (res : Json)
  | listPromptsResult (nextCursor : Option String) (prompts : List String)
  | listResourcesResult (nextCursor : Option String) (resources : List String)
  | listResourceTemplatesResult (nextCursor : Option String) (resourceTemplates : List String)
  | readResourceResult (res : Json)
  | callToolResult (res : Json)
  | listToolsResult (nextCursor : Option String) (tools : List String)

/-- JSON-RPC `INTERNAL_ERROR`, rmcp `ErrorCode::INTERNAL_ERROR`. -/
def INTERNAL_ERROR : Int := -32603

/-- Outcome of one `handle_request` call: a successful reply, an
`Err(McpError)` reply with code and message, or a Rust panic (the
`.unwrap()` on the empty client slot). -/
inductive HandleOutcome where
  | ok (res : ServerResult)
  | mcpError (code : Int) (message : String)
  | panic

/-- `Gate::handle_request` (src/gate.rs lines 34-135).  State threaded
explicitly: `slot` is the Gate's `client` slot, `calls` counts factory
invocations so far (instrumentation only; the factory is indexed by it so
successive invocations may return distinct clients).  Every arm other than
`InitializeRequest`/`PingRequest` does
`self.client.read().await.as_ref().unwrap()`, which panics when the slot is
empty.  Returns (outcome, slot after, factory-call count after). -/
def handleRequest (factory : Nat → Except String UpstreamClient)
    (calls : Nat) (slot : Option UpstreamClient) :
    ClientRequest → HandleOutcome × Option UpstreamClient × Nat
  | .initializeRequest =>
    -- `let client = self.config.create_client(client_info).await?;`
    match factory calls with
    | .error e => (.mcpError INTERNAL_ERROR e, slot, calls + 1)
    | .ok client =>
      -- `*(self.client.write().await) = Some(client.clone());`
      -- `let res = client.peer_info().cloned().unwrap_or_default();`
      (.ok (.initializeResult (client.peerInfo.getD defaultInitializeResult)),
        some client, calls + 1)
  | .pingRequest => (.ok .emptyResult, slot, calls)
  | .completeRequest params =>
    match slot with
    | none => (.panic, slot, calls)
    | some client =>
      match client.completeResult params with
      | .ok res => (.ok (.completeResult res), slot, calls)
      | .error e => (.mcpError INTERNAL_ERROR e, slot, calls)
  | .setLevelRequest params =>
    match slot with
    | none => (.panic, slot, calls)
    | some client =>
      match client.setLevelResult params with
      | .ok _ => (.ok .emptyResult, slot, calls)
      | .error e => (.mcpError INTERNAL_ERROR e, slot, calls)
  | .getPromptRequest params =>
    match slot with
    | none => (.panic, slot, calls)
    | some client =>
      match client.getPromptResult params with
      | .ok res => (.ok (.getPromptResult res), slot, calls)
      | .error e => (.mcpError INTERNAL_ERROR e, slot, calls)
  | .listPromptsRequest =>
    match slot with
    | none => (.panic, slot, calls)
    | some client =>
      (.ok (.listPromptsResult none (listAll client.promptPages)), slot, calls)
  | .listResourcesRequest =>
    match slot with
    | none => (.panic, slot, calls)
    | some client =>
      (.ok (.listResourcesResult none (listAll client.resourcePages)), slot, calls)
  | .listResourceTemplatesRequest =>
    match slot with
    | none => (.panic, slot, calls)
    | some client =>
      (.ok (.listResourceTemplatesResult none (listAll client.resourceTemplatePages)),
        slot, calls)
  | .readResourceRequest params =>
    match slot with
    | none => (.panic, slot, calls)
    | some client =>
      match client.readResourceResult params with
      | .ok res => (.ok (.readResourceResult res), slot, calls)
      | .error e => (.mcpError INTERNAL_ERROR e, slot, calls)
  | .subscribeRequest params =>
    match slot with
    | none => (.panic, slot, calls)
    | some client =>
      match client.subscribeResult params with
      | .ok _ => (.ok .emptyResult, slot, calls)
      | .error e => (.mcpError INTERNAL_ERROR e, slot, calls)
  | .unsubscribeRequest params =>
    match slot with
    | none => (.panic, slot, calls)
    | some client =>
      match client.unsubscribeResult params with
      | .ok _ => (.ok .emptyResult, slot, calls)
      | .error e => (.mcpError INTERNAL_ERROR e, slot, calls)
  | .callToolRequest params =>
    match slot with
    | none => (.panic, slot, calls)
    | some client =>
      match client.callToolResult params with
      | .ok res => (.ok (.callToolResult res), slot, calls)
      | .error e => (.mcpError INTERNAL_ERROR e, slot, calls)
  | .listToolsRequest =>
    match slot with
    | none => (.panic, slot, calls)
    | some client =>
      (.ok (.listToolsResult none (listAll client.toolPages)), slot, calls)

/-- Run a whole inbound session's request sequence through
`handleRequest`.  A panic aborts the session task, so no further requests
are processed after one.  Returns (factory-call count, final slot,
outcomes). -/
def runRequests (factory : Nat → Except String UpstreamClient)
    (calls : Nat) (slot : Option UpstreamClient) :
    List ClientRequest → Nat × Option UpstreamClient × List HandleOutcome
  | [] => (calls, slot, [])
  | req :: rest =>
    match handleRequest factory calls slot req with
    | (.panic, slot', calls') => (calls', slot', [.panic])
    | (out, slot', calls') =>
      let (calls'', slot'', outs) := runRequests factory calls' slot' rest
      (calls'', slot'', out :: outs)

/-- Whether a request is the `initialize` request. -/
def ClientRequest.isInit : ClientRequest → Bool
  | .initializeRequest => true
  | _ => false

/-! ## App state and config reload (src/main.rs)

`Config.servers` is a `HashMap<Arc<str>, Arc<McpServerConfig>>`, modelled
as an association list with unique keys; `App.routers` is a
`HashMap<Arc<str>, Router>`, with the `Router` value opaque (a `Nat`
identity). -/

/-- The service map of a parsed `Config`. -/
abbrev ConfigMap := List (String × McpServerConfig)

/-- `HashMap::get`. -/
def lookupKey : ConfigMap → String → Option McpServerConfig
  | [], _ => none
  | p :: rest, k => if p.1 = k then some p.2 else lookupKey rest k

/-- `HashMap::contains_key`. -/
def containsKey (m : ConfigMap) (k : String) : Bool :=
  (lookupKey m k).isSome

/-- The gateway state touched by `App::reload_config`: the config snapshot
and the router cache. -/
structure AppState where
  config : ConfigMap
  routers : List (String × Nat)
deriving DecidableEq, Repr

/-- `App::reload_config` (src/main.rs lines 194-220).  `parsed` is the
result of `Config::read(&self.conf_path)`: `none` when the file cannot be
read or parsed (the `?` propagates and nothing below runs).  On success:
`removed` is the cached keys absent from the new config; `removed2` is the
old-config keys whose entry is present in the new config with a different
value; both sets of keys are removed from the router cache, then the
snapshot is swapped. -/
def reloadConfig (st : AppState) (parsed : Option ConfigMap) : AppState :=
  match parsed with
  | none => st
  | some newConfig =>
    let removed : List String :=
      (st.routers.map (·.1)).filter (fun k => !(containsKey newConfig k))
    let removed2 : List String :=
      (st.config.filter (fun p =>
        match lookupKey newConfig p.1 with
        | some newServer => decide (p.2 ≠ newServer)
        | none => false)).map (·.1)
    let removedAll := removed ++ removed2
    { config := newConfig,
      routers := st.routers.filter (fun p => decide (p.1 ∉ removedAll)) }

/-! ## Reload supervisor loop (src/main.rs lines 112-149)

The supervisor task keeps an optional pending debounce sleep (`reload`).
With no sleep pending it blocks on the watcher channel.  With a sleep
pending it selects between the sleep elapsing (perform the reload,
continue with no sleep pending) and the next channel event (restore the
sleep, then process the event).  An `Err` watcher result is skipped; an
`Ok` event whose kind is `Modify(ModifyKind::Data(_))` sets `reload` to a
**fresh** `sleep(2 s)` — also when a sleep was already pending, which
resets the deadline.  Every other event leaves the pending sleep as it
was.  Time is in seconds (`Nat`); the select resolves the sleep first
exactly when its deadline is strictly before the event's arrival time (the
theorems only use inputs where the two are never equal). -/

/-- One item received from the watcher channel. -/
inductive WatchEvent where
  | modifyData
  | otherEvent
  | watchError
deriving DecidableEq, Repr

/-- The instants at which the supervisor performs a reload, given the
pending deadline (`arm`) and the timed event sequence (nondecreasing
times).  When the pending sleep elapses before the next event arrives, the
reload is performed and the loop (now with no sleep pending) receives that
event; after the last event, a still-pending sleep elapses and the reload
is performed. -/
def reloadTimes : Option Nat → List (Nat × WatchEvent) → List Nat
  | none, [] => []
  | some d, [] => [d]
  | none, (t, e) :: rest =>
    match e with
    | .modifyData => reloadTimes (some (t + 2)) rest
    | _ => reloadTimes none rest
  | some d, (t, e) :: rest =>
    if d < t then
      d :: (match e with
            | .modifyData => reloadTimes (some (t + 2)) rest
            | _ => reloadTimes none rest)
    else
      match e with
      | .modifyData => reloadTimes (some (t + 2)) rest
      | _ => reloadTimes (some d) rest

/-- Bool form of "every event arrives within 2 seconds of its
predecessor" (so each event is received while the previous event's
debounce sleep is still pending). -/
def eachWithinDebounce : Nat → List Nat → Bool
  | _, [] => true
  | a, b :: rest => (b ≤ a + 2) && eachWithinDebounce b rest

/-! ## Config introspection handler (src/main.rs, `list_servers`) -/

/-- `list_servers` (src/main.rs lines 279-321).  `params` is the parsed
query string (axum `Query<HashMap<String, String>>`; a valueless
parameter such as `?sse` is present with value `""`), `hostHeader` the
inbound `Host` header when present and readable as a string.  Each entry
of the current config is rewritten via `to_sse` / `to_streamable`. -/
def listServers (params : List (String × String)) (hostHeader : Option String)
    (config : ConfigMap) : ConfigMap :=
  let sse := (params.find? (fun p => p.1 == "sse")).isSome
  let schame := if (params.find? (fun p => p.1 == "https")).isSome then "https" else "http"
  let host := ((params.find? (fun p => p.1 == "host")).map (·.2)).getD (hostHeader.getD "")
  config.map (fun p =>
    (p.1,
      if sse then
        p.2.toSse (schame ++ "://" ++ host ++ "/" ++ p.1 ++ "/sse")
      else
        p.2.toStreamable (schame ++ "://" ++ host ++ "/" ++ p.1)))

/-! ## Shared example values used by witnesses and counterexamples -/

/-- A factory that succeeds on every invocation, returning a client whose
identity records how many factory calls preceded it. -/
def exampleFactory : Nat → Except String UpstreamClient := fun n =>
  .ok { id := n, peerInfo := none,
        completeResult := fun _ => .error "unused",
        setLevelResult := fun _ => .error "unused",
        getPromptResult := fun _ => .error "unused",
        readResourceResult := fun _ => .error "unused",
        subscribeResult := fun _ => .error "unused",
        unsubscribeResult := fun _ => .error "unused",
        callToolResult := fun _ => .error "unused",
        toolPages := [], promptPages := [], resourcePages := [],
        resourceTemplatePages := [] }

/-- An upstream client whose paginated list calls return two pages of tools
(cursor `c1` then end), one page of prompts, no resources, and two pages of
resource templates. -/
def examplePagedClient : UpstreamClient :=
  { id := 0, peerInfo := none,
    completeResult := fun _ => .error "unused",
    setLevelResult := fun _ => .error "unused",
    getPromptResult := fun _ => .error "unused",
    readResourceResult := fun _ => .error "unused",
    subscribeResult := fun _ => .error "unused",
    unsubscribeResult := fun _ => .error "unused",
    callToolResult := fun _ => .error "unused",
    toolPages := [⟨["t1", "t2"], some "c1"⟩, ⟨["t3"], none⟩],
    promptPages := [⟨["p1"], none⟩],
    resourcePages := [],
    resourceTemplatePages := [⟨["rt1"], some "c1"⟩, ⟨["rt2"], some "c2"⟩, ⟨["rt3"], none⟩] }

/-- Example `Stdio` entry `A` (cf. testable property P5). -/
def entryA : McpServerConfig :=
  .stdio { name := none, description := none, command := "a", args := [], cwd := none, env := none }

/-- Example `Stdio` entry `B`. -/
def entryB : McpServerConfig :=
  .stdio { name := none, description := none, command := "b", args := [], cwd := none, env := none }

/-- Example `Stdio` entry `B'`, differing from `B` in its command. -/
def entryB2 : McpServerConfig :=
  .stdio { name := none, description := none, command := "b2", args := [], cwd := none, env := none }

/-! ## Helper lemmas -/

/-- An object without a `type` key is unchanged by tag removal. -/
theorem removeTypeField_of_none {fields : List (String × Json)}
    (h : findTypeField fields = none) : removeTypeField fields = fields := by
  induction fields with
  | nil => rfl
  | cons p rest ih =>
    simp only [findTypeField, List.find?] at h
    rcases hb : (p.1 == "type") with _ | _
    · simp only [removeTypeField, hb, Bool.false_eq_true, if_false, List.cons.injEq, true_and]
      apply ih
      simp only [findTypeField]
      rw [hb] at h
      simpa using h
    · rw [hb] at h
      simp at h

/-- Aggregation over a page sequence in which every page except the last
reports a `next_cursor` concatenates all pages' items in order. -/
theorem listAll_eq_flatten {α : Type} (pages : List (Page α))
    (h : pages.dropLast.all (fun p => p.nextCursor.isSome) = true) :
    listAll pages = (pages.map Page.items).flatten := by
  induction pages with
  | nil => rfl
  | cons p rest ih =>
    cases rest with
    | nil =>
      cases hc : p.nextCursor <;> simp [listAll, hc]
    | cons q rest' =>
      simp only [List.dropLast, List.all_cons, Bool.and_eq_true] at h
      obtain ⟨hp, hrest⟩ := h
      cases hc : p.nextCursor with
      | none => rw [hc] at hp; simp at hp
      | some c =>
        have h1 : listAll (p :: q :: rest') = p.items ++ listAll (q :: rest') := by
          rw [listAll, hc]
        rw [h1, ih hrest]
        simp

/-- In a map with unique keys, lookup finds exactly the stored pair. -/
theorem lookupKey_eq_some_iff {m : ConfigMap} (hnd : (m.map Prod.fst).Nodup)
    {k : String} {v : McpServerConfig} :
    lookupKey m k = some v ↔ (k, v) ∈ m := by
  induction m with
  | nil => simp [lookupKey]
  | cons p rest ih =>
    obtain ⟨a, b⟩ := p
    simp only [List.map, List.nodup_cons] at hnd
    obtain ⟨hnin, hnd'⟩ := hnd
    by_cases hk : a = k
    · subst hk
      constructor
      · intro h
        have hbv : b = v := by simpa [lookupKey] using h
        subst hbv
        exact List.mem_cons_self _ _
      · intro h
        rcases List.mem_cons.mp h with h1 | h1
        · cases h1
          simp [lookupKey]
        · exact absurd (List.mem_map.mpr ⟨_, h1, rfl⟩) hnin
    · have hl : lookupKey ((a, b) :: rest) k = lookupKey rest k := by
        simp [lookupKey, hk]
      rw [hl, ih hnd', List.mem_cons]
      constructor
      · exact Or.inr
      · rintro (h | h)
        · exact absurd (congrArg Prod.fst h).symm hk
        · exact h

/-! ## Claim theorems -/

/-- C1: the claim says that in `Unbound` (empty client slot) every
non-`initialize`/non-`ping` request is answered with an `INTERNAL_ERROR`
reply rather than crashing.  The code instead does
`self.client.read().await.as_ref().unwrap()`, which panics on the empty
slot: this theorem evaluates `handle_request` at every
non-`initialize`/non-`ping` request with an empty slot and shows it
panics, never producing an error reply. -/
theorem C1_unbound_request_panics (factory : Nat → Except String UpstreamClient)
    (calls : Nat) (params : Json) :
    handleRequest factory calls none (.completeRequest params) = (.panic, none, calls) ∧
    handleRequest factory calls none (.setLevelRequest params) = (.panic, none, calls) ∧
    handleRequest factory calls none (.getPromptRequest params) = (.panic, none, calls) ∧
    handleRequest factory calls none .listPromptsRequest = (.panic, none, calls) ∧
    handleRequest factory calls none .listResourcesRequest = (.panic, none, calls) ∧
    handleRequest factory calls none .listResourceTemplatesRequest = (.panic, none, calls) ∧
    handleRequest factory calls none (.readResourceRequest params) = (.panic, none, calls) ∧
    handleRequest factory calls none (.subscribeRequest params) = (.panic, none, calls) ∧
    handleRequest factory calls none (.unsubscribeRequest params) = (.panic, none, calls) ∧
    handleRequest factory calls none (.callToolRequest params) = (.panic, none, calls) ∧
    handleRequest factory calls none .listToolsRequest = (.panic, none, calls) :=
  ⟨rfl, rfl, rfl, rfl, rfl, rfl, rfl, rfl, rfl, rfl, rfl⟩

/-- C5: when `Config::read` fails, `reload_config` returns before touching
any state — the prior config snapshot is retained and no router cache
entry is evicted. -/
theorem C5_failed_reload_preserves_state (st : AppState) :
    reloadConfig st none = st := rfl

/-- C3 counterexample: two content-modify events at t = 0 s and t = 1 s.
The claim says the second event is ignored and the single reload happens
2 s after the first event, i.e. at t = 2 s; the supervisor loop instead
re-arms a fresh 2-second sleep on the second event, so the reload happens
at t = 3 s. -/
theorem C3_counterexample :
    reloadTimes none [(0, .modifyData), (1, .modifyData)] = [3] ∧
    reloadTimes none [(0, .modifyData), (1, .modifyData)] ≠ [2] := by
  constructor
  · rfl
  · decide

/-- C3 (amended): a content-modify event received while the debounce timer
is armed **resets** the timer to 2 seconds after that event.  For any
nonempty sequence of content-modify events in which each event arrives no
later than the pending deadline (within 2 seconds of its predecessor),
exactly one reload is performed, 2 seconds after the **last** event. -/
theorem C3_debounce_resets (t : Nat) (ts : List Nat)
    (hchain : eachWithinDebounce t ts = true) :
    reloadTimes none ((t :: ts).map (fun u => (u, WatchEvent.modifyData))) =
      [ts.getLastD t + 2] := by
  have aux : ∀ (u : Nat) (us : List Nat), eachWithinDebounce u us = true →
      reloadTimes (some (u + 2)) (us.map (fun w => (w, WatchEvent.modifyData))) =
        [us.getLastD u + 2] := by
    intro u us
    induction us generalizing u with
    | nil => intro _; rfl
    | cons w ws ih =>
      intro hch
      simp only [eachWithinDebounce, Bool.and_eq_true, decide_eq_true_eq] at hch
      obtain ⟨hw, hch'⟩ := hch
      have hnlt : ¬ (u + 2 < w) := by omega
      simp only [List.map, reloadTimes, if_neg hnlt]
      rw [ih w hch', List.getLastD_cons]
  simp only [List.map, reloadTimes]
  exact aux t ts hchain

/-- C3 witness: three content-modify events at t = 0, 1, 2 — each within
2 s of its predecessor — produce exactly one reload, at t = 2 + 2 = 4. -/
theorem C3_witness :
    eachWithinDebounce 0 [1, 2] = true ∧
    reloadTimes none ([0, 1, 2].map (fun u => (u, WatchEvent.modifyData))) = [4] :=
  ⟨by decide, C3_debounce_resets 0 [1, 2] (by decide)⟩

/-- C7 counterexample: the claim says every absent optional field is
omitted — in particular a `Stdio` entry with absent `cwd` and `env`
serializes without `cwd` and `env` keys.  `McpStdioConfig.cwd` and `.env`
carry no `skip_serializing_if`, so this concrete entry with `cwd = None`
and `env = None` serializes **with** both keys (as JSON `null`). -/
theorem C7_counterexample :
    hasKey (McpServerConfig.serializeFields
      (.stdio { name := none, description := none, command := "echo",
                args := ["hello"], cwd := none, env := none })) "cwd" = true ∧
    hasKey (McpServerConfig.serializeFields
      (.stdio { name := none, description := none, command := "echo",
                args := ["hello"], cwd := none, env := none })) "env" = true ∧
    getField (McpServerConfig.serializeFields
      (.stdio { name := none, description := none, command := "echo",
                args := ["hello"], cwd := none, env := none })) "cwd" = some .null :=
  ⟨rfl, rfl, rfl⟩

/-- C7 (amended): serialization omits `name` and `description` exactly
when they are `None`; a `Stdio` entry always serializes `cwd` and `env`
keys (as `null` when `None`), while `Sse` and `Streamable` entries never
have them. -/
theorem C7_optional_field_serialization (c : McpServerConfig) :
    hasKey c.serializeFields "name" = c.name.isSome ∧
    hasKey c.serializeFields "description" = c.description.isSome ∧
    hasKey c.serializeFields "cwd" = (match c with | .stdio _ => true | _ => false) ∧
    hasKey c.serializeFields "env" = (match c with | .stdio _ => true | _ => false) := by
  cases c with
  | sse s =>
    obtain ⟨n, d, u⟩ := s
    cases n <;> cases d <;>
      simp [McpServerConfig.serializeFields, serializeSse, serOptField, hasKey,
        McpServerConfig.name, McpServerConfig.description]
  | stdio s =>
    obtain ⟨n, d, cmd, args, cw, ev⟩ := s
    cases n <;> cases d <;>
      simp [McpServerConfig.serializeFields, serializeStdio, serOptField, hasKey,
        McpServerConfig.name, McpServerConfig.description]
  | streamable s =>
    obtain ⟨n, d, u⟩ := s
    cases n <;> cases d <;>
      simp [McpServerConfig.serializeFields, serializeStreamable, serOptField, hasKey,
        McpServerConfig.name, McpServerConfig.description]

/-- C10: a `type` field whose value is not a JSON string (number, boolean,
null, object, array) is extracted and removed like any `type` field, but
`Content::as_str` yields `None`, so `unwrap_or_default()` makes the tag
`""` and the entry deserializes as the `Stdio` variant from the payload
with the `type` key removed — no unknown-variant error. -/
theorem C10_nonstring_tag_defaults_to_stdio (fields : List (String × Json)) (tv : Json)
    (hfind : findTypeField fields = some tv)
    (hnostr : tv.asStr = none) :
    McpServerConfig.deserialize (.obj fields) =
      (deserializeStdio (removeTypeField fields)).map .stdio := by
  have h : ((some tv).bind fun a => a.asStr) = none := hnostr
  simp only [McpServerConfig.deserialize, hfind, h, Option.getD_none]

/-- C10 witness: `{"type": 3, "command": "c", "args": []}` parses as the
`Stdio` entry `{command := "c", args := []}`. -/
theorem C10_witness :
    findTypeField [("type", Json.num 3), ("command", Json.str "c"),
      ("args", Json.arr [])] = some (Json.num 3) ∧
    (Json.num 3).asStr = none ∧
    McpServerConfig.deserialize (.obj [("type", Json.num 3), ("command", Json.str "c"),
        ("args", Json.arr [])]) =
      (deserializeStdio (removeTypeField [("type", Json.num 3), ("command", Json.str "c"),
        ("args", Json.arr [])])).map .stdio :=
  ⟨rfl, rfl, C10_nonstring_tag_defaults_to_stdio _ _ rfl rfl⟩

/-- C6 counterexample: the claim says `"sse"`, `"streamable"`,
`"streamableHttp"`, `"stdio"` and an absent `type` field select their
variants and **any other string value** yields an unknown-variant error.
But a present `type` field whose value is the empty string `""` is another
string value, and the deserializer's `"" => Stdio` arm parses it as the
`Stdio` variant instead of erroring. -/
theorem C6_counterexample :
    McpServerConfig.deserialize
        (.obj [("type", Json.str ""), ("command", Json.str "c"), ("args", Json.arr [])]) =
      .ok (.stdio { name := none, description := none, command := "c", args := [],
                    cwd := none, env := none }) ∧
    McpServerConfig.deserialize
        (.obj [("type", Json.str ""), ("command", Json.str "c"), ("args", Json.arr [])]) ≠
      .error (.unknownVariant "" VARIANTS) := by
  constructor
  · rfl
  · intro h
    have he : McpServerConfig.deserialize
        (.obj [("type", Json.str ""), ("command", Json.str "c"), ("args", Json.arr [])]) =
          Except.ok (McpServerConfig.stdio
            { name := none, description := none, command := "c", args := [],
              cwd := none, env := none }) := rfl
    rw [he] at h
    exact Except.noConfusion h

/-- C6 (amended): deserialization dispatches on the string value of the
`type` field: `"sse"` yields `Sse`; `"streamable"` and `"streamableHttp"`
both yield the same `Streamable` variant; `"stdio"`, the empty string
`""`, and an absent `type` field all yield `Stdio`; any other string value
yields an error carrying the valid variant set
`["sse", "stdio", "streamable", "streamableHttp"]`. -/
theorem C6_tag_dispatch (rest : List (String × Json)) (t : String)
    (hrest : findTypeField rest = none)
    (ht : t ∉ VARIANTS) (hne : t ≠ "") :
    McpServerConfig.deserialize (.obj (("type", .str "sse") :: rest)) =
      (deserializeSse rest).map .sse ∧
    McpServerConfig.deserialize (.obj (("type", .str "streamable") :: rest)) =
      (deserializeStreamable rest).map .streamable ∧
    McpServerConfig.deserialize (.obj (("type", .str "streamableHttp") :: rest)) =
      (deserializeStreamable rest).map .streamable ∧
    McpServerConfig.deserialize (.obj (("type", .str "stdio") :: rest)) =
      (deserializeStdio rest).map .stdio ∧
    McpServerConfig.deserialize (.obj (("type", .str "") :: rest)) =
      (deserializeStdio rest).map .stdio ∧
    McpServerConfig.deserialize (.obj rest) = (deserializeStdio rest).map .stdio ∧
    McpServerConfig.deserialize (.obj (("type", .str t) :: rest)) =
      .error (.unknownVariant t VARIANTS) := by
  simp only [VARIANTS, List.mem_cons, List.not_mem_nil, or_false, not_or] at ht
  obtain ⟨h1, h2, h3, h4⟩ := ht
  refine ⟨rfl, rfl, rfl, rfl, rfl, ?_, ?_⟩
  · simp only [McpServerConfig.deserialize, hrest, removeTypeField_of_none hrest,
      Option.none_bind, Option.getD_none]
  · have hfind : findTypeField (("type", Json.str t) :: rest) = some (.str t) := rfl
    have hrem : removeTypeField (("type", Json.str t) :: rest) = rest := rfl
    simp only [McpServerConfig.deserialize, hfind, hrem, Option.some_bind, Json.asStr,
      Option.getD_some]

/-- C6 witness: a payload carrying `command`, `args` and `url`, under the
unknown tag `"foo"`, produces the unknown-variant error carrying the valid
variant set. -/
theorem C6_witness :
    findTypeField [("command", Json.str "c"), ("args", Json.arr []),
      ("url", Json.str "u")] = none ∧
    "foo" ∉ VARIANTS ∧ "foo" ≠ "" ∧
    McpServerConfig.deserialize (.obj [("type", Json.str "foo"), ("command", Json.str "c"),
        ("args", Json.arr []), ("url", Json.str "u")]) =
      .error (.unknownVariant "foo" VARIANTS) :=
  ⟨rfl, by decide, by decide,
    (C6_tag_dispatch [("command", Json.str "c"), ("args", Json.arr []),
      ("url", Json.str "u")] "foo" rfl (by decide) (by decide)).2.2.2.2.2.2⟩

/-- One `handle_request` call invokes the factory exactly when the request
is `initialize` (whether or not the factory succeeds). -/
theorem handleRequest_calls (factory : Nat → Except String UpstreamClient)
    (calls : Nat) (slot : Option UpstreamClient) (req : ClientRequest) :
    (handleRequest factory calls slot req).2.2 =
      if req.isInit then calls + 1 else calls := by
  cases req <;>
    simp only [handleRequest, ClientRequest.isInit] <;>
    (try split) <;> (try split) <;> simp_all

/-- Over a request sequence, the factory-call count grows by at most the
number of `initialize` requests. -/
theorem runRequests_calls_le (factory : Nat → Except String UpstreamClient)
    (reqs : List ClientRequest) :
    ∀ (calls : Nat) (slot : Option UpstreamClient),
      (runRequests factory calls slot reqs).1 ≤
        calls + reqs.countP ClientRequest.isInit := by
  induction reqs with
  | nil => intro calls slot; simp [runRequests]
  | cons req rest ih =>
    intro calls slot
    have hc := handleRequest_calls factory calls slot req
    rcases hreq : handleRequest factory calls slot req with ⟨out, slot', calls'⟩
    rw [hreq] at hc
    simp only at hc
    have hcount : (req :: rest).countP ClientRequest.isInit =
        rest.countP ClientRequest.isInit + if req.isInit then 1 else 0 := by
      rw [List.countP_cons]
    have hout : (runRequests factory calls slot (req :: rest)).1 = calls' ∨
        (runRequests factory calls slot (req :: rest)).1 =
          (runRequests factory calls' slot' rest).1 := by
      cases out with
      | panic => left; simp [runRequests, hreq]
      | ok res => right; simp [runRequests, hreq]
      | mcpError code msg => right; simp [runRequests, hreq]
    have hrest := ih calls' slot'
    rcases hout with h | h <;> rw [h, hcount] <;>
      by_cases hb : req.isInit = true <;> simp [hb] at hc ⊢ <;> omega

/-- C2 counterexample: the claim says `create_client` is invoked at most
once per inbound session and that a second `initialize` does not create a
second upstream client.  Running the two-request session
`[initialize, initialize]` against an always-succeeding factory invokes
the factory twice, and after the second request the slot holds the second
client (`id = 1`), not the first. -/
theorem C2_counterexample :
    (runRequests exampleFactory 0 none
      [.initializeRequest, .initializeRequest]).1 = 2 ∧
    ¬ ((runRequests exampleFactory 0 none
      [.initializeRequest, .initializeRequest]).1 ≤ 1) ∧
    (Option.map UpstreamClient.id
      (runRequests exampleFactory 0 none
        [.initializeRequest, .initializeRequest]).2.1) = some 1 := by
  refine ⟨rfl, ?_, rfl⟩
  have h : (runRequests exampleFactory 0 none
      [.initializeRequest, .initializeRequest]).1 = 2 := rfl
  omega

/-- C2 (amended): the Gate invokes `create_client` exactly on each
`initialize` request it handles — over a whole session at most as many
times as the session contains `initialize` requests, hence at most once
for a session that issues `initialize` at most once; the slot holds at
most one client at a time, but a repeated `initialize` does invoke the
factory again and rebinds the slot to the new client. -/
theorem C2_factory_once_per_init (factory : Nat → Except String UpstreamClient)
    (reqs : List ClientRequest) :
    (runRequests factory 0 none reqs).1 ≤ reqs.countP ClientRequest.isInit := by
  have h := runRequests_calls_le factory reqs 0 none
  omega

/-- C8: for a bound session (slot holds a client) whose upstream answers
each paginated list call with a page sequence in which every page but the
last carries a `next_cursor`, the Gate's `list_tools` (and `list_prompts`,
`list_resources`, `list_resource_templates`) reply contains the
concatenation of all pages' items in order, and the downstream
`next_cursor` is always `None`. -/
theorem C8_list_aggregation (factory : Nat → Except String UpstreamClient)
    (calls : Nat) (client : UpstreamClient)
    (hT : client.toolPages.dropLast.all (fun p => p.nextCursor.isSome) = true)
    (hP : client.promptPages.dropLast.all (fun p => p.nextCursor.isSome) = true)
    (hR : client.resourcePages.dropLast.all (fun p => p.nextCursor.isSome) = true)
    (hRT : client.resourceTemplatePages.dropLast.all
      (fun p => p.nextCursor.isSome) = true) :
    handleRequest factory calls (some client) .listToolsRequest =
      (.ok (.listToolsResult none ((client.toolPages.map Page.items).flatten)),
        some client, calls) ∧
    handleRequest factory calls (some client) .listPromptsRequest =
      (.ok (.listPromptsResult none ((client.promptPages.map Page.items).flatten)),
        some client, calls) ∧
    handleRequest factory calls (some client) .listResourcesRequest =
      (.ok (.listResourcesResult none ((client.resourcePages.map Page.items).flatten)),
        some client, calls) ∧
    handleRequest factory calls (some client) .listResourceTemplatesRequest =
      (.ok (.listResourceTemplatesResult none
          ((client.resourceTemplatePages.map Page.items).flatten)),
        some client, calls) := by
  refine ⟨?_, ?_, ?_, ?_⟩ <;>
    simp only [handleRequest, listAll_eq_flatten _ hT, listAll_eq_flatten _ hP,
      listAll_eq_flatten _ hR, listAll_eq_flatten _ hRT]

/-- C8 witness: a client whose tool pages are
`(["t1","t2"], cursor "c1")` then `(["t3"], end)` yields the single reply
`["t1","t2","t3"]` with no `next_cursor`; likewise for the other three
list operations. -/
theorem C8_witness :
    (examplePagedClient.toolPages.dropLast.all (fun p => p.nextCursor.isSome) = true) ∧
    (examplePagedClient.resourceTemplatePages.dropLast.all
      (fun p => p.nextCursor.isSome) = true) ∧
    handleRequest exampleFactory 0 (some examplePagedClient) .listToolsRequest =
      (.ok (.listToolsResult none
        ((examplePagedClient.toolPages.map Page.items).flatten)),
        some examplePagedClient, 0) ∧
    handleRequest exampleFactory 0 (some examplePagedClient) .listResourceTemplatesRequest =
      (.ok (.listResourceTemplatesResult none
        ((examplePagedClient.resourceTemplatePages.map Page.items).flatten)),
        some examplePagedClient, 0) := by
  have h := C8_list_aggregation exampleFactory 0 examplePagedClient rfl rfl rfl rfl
  exact ⟨rfl, rfl, h.1, h.2.2.2⟩

/-- C9: `GET /mcp/config` returns the full service map with every entry
rewritten to point back at the gateway: with the `sse` query parameter the
entry becomes an `sse` variant with url `{scheme}://{host}/{service}/sse`,
otherwise a `streamableHttp` variant with url `{scheme}://{host}/{service}`;
the scheme is `https` exactly when the `https` parameter is present, else
`http`; the host is the `host` parameter's value if given, else the
inbound `Host` header, else the empty string. -/
theorem C9_config_introspection (params : List (String × String))
    (hostHeader : Option String) (config : ConfigMap) (scheme host : String)
    (hscheme : scheme =
      if (params.find? (fun p => p.1 == "https")).isSome then "https" else "http")
    (hhost : host =
      (((params.find? (fun p => p.1 == "host")).map (·.2)).getD (hostHeader.getD ""))) :
    listServers params hostHeader config =
      if (params.find? (fun p => p.1 == "sse")).isSome then
        config.map (fun p => (p.1, McpServerConfig.sse
          { name := p.2.name, description := p.2.description,
            url := scheme ++ "://" ++ host ++ "/" ++ p.1 ++ "/sse" }))
      else
        config.map (fun p => (p.1, McpServerConfig.streamable
          { name := p.2.name, description := p.2.description,
            url := scheme ++ "://" ++ host ++ "/" ++ p.1 })) := by
  subst hscheme hhost
  simp only [listServers, McpServerConfig.toSse, McpServerConfig.toStreamable]
  split <;> rfl

/-- C9 witness (spec scenario 2): config `{svc: {command:"foo"}}`, request
`GET /mcp/config` with `Host: example:9000` and no query parameters, yields
`{svc: {type:"streamableHttp", url:"http://example:9000/svc"}}`. -/
theorem C9_witness :
    ("http" : String) =
      (if (List.find? (fun p => p.1 == "https") ([] : List (String × String))).isSome
        then "https" else "http") ∧
    ("example:9000" : String) =
      (((List.find? (fun p => p.1 == "host")
          ([] : List (String × String))).map (·.2)).getD
        ((some "example:9000").getD "")) ∧
    listServers [] (some "example:9000")
        [("svc", .stdio { name := none, description := none, command := "foo",
                          args := [], cwd := none, env := none })] =
      [("svc", McpServerConfig.streamable
        { name := none, description := none, url := "http://example:9000/svc" })] := by
  refine ⟨rfl, rfl, ?_⟩
  have h := C9_config_introspection [] (some "example:9000")
    [("svc", .stdio { name := none, description := none, command := "foo",
                      args := [], cwd := none, env := none })] "http" "example:9000" rfl rfl
  rw [h]
  rfl

/-- C4: after a successful reload the router cache retains exactly the
previously cached entries whose key is present in the new config with a
`ServerEntry` equal to its value in the previous snapshot; every key
absent from the new config or mapped to a different value is evicted, and
nothing else is.  Hypotheses: config keys are unique (`HashMap`), and
every cached router key is present in the current snapshot (routers are
only ever created for configured services and evicted when their entry
disappears). -/
theorem C4_reload_eviction (st : AppState) (nc : ConfigMap)
    (hnd : (st.config.map Prod.fst).Nodup)
    (hinv : ∀ p ∈ st.routers, containsKey st.config p.1 = true) :
    (reloadConfig st (some nc)).routers =
      st.routers.filter (fun p =>
        decide ((lookupKey nc p.1).isSome ∧
          lookupKey nc p.1 = lookupKey st.config p.1)) := by
  show st.routers.filter _ = st.routers.filter _
  apply List.filter_congr
  intro p hp
  have hmem : p.1 ∈ st.routers.map (·.1) := List.mem_map.mpr ⟨p, hp, rfl⟩
  have hcont := hinv p hp
  rw [containsKey] at hcont
  obtain ⟨v, hv⟩ := Option.isSome_iff_exists.mp hcont
  rw [decide_eq_decide]
  cases hlk : lookupKey nc p.1 with
  | none =>
    apply iff_of_false
    · intro hno
      apply hno
      apply List.mem_append.mpr
      left
      exact List.mem_filter.mpr ⟨hmem, by simp [containsKey, hlk]⟩
    · simp [hlk]
  | some w =>
    have hrem1 : p.1 ∉ (st.routers.map (·.1)).filter (fun k => !(containsKey nc k)) := by
      intro hin
      have := (List.mem_filter.mp hin).2
      simp [containsKey, hlk] at this
    have hrem2 : p.1 ∈ (st.config.filter (fun q =>
        match lookupKey nc q.1 with
        | some newServer => decide (q.2 ≠ newServer)
        | none => false)).map (·.1) ↔ v ≠ w := by
      constructor
      · intro hk
        obtain ⟨q, hq, hqk⟩ := List.mem_map.mp hk
        obtain ⟨hqmem, hqpred⟩ := List.mem_filter.mp hq
        have hlq : lookupKey st.config q.1 = some q.2 :=
          (lookupKey_eq_some_iff hnd).mpr (by simpa using hqmem)
        rw [hqk, hv] at hlq
        have hq2 : q.2 = v := by injection hlq.symm
        rw [hqk, hlk] at hqpred
        simp only [decide_eq_true_eq] at hqpred
        rw [← hq2]
        exact hqpred
      · intro hne
        apply List.mem_map.mpr
        refine ⟨(p.1, v), List.mem_filter.mpr ⟨(lookupKey_eq_some_iff hnd).mp hv, ?_⟩, rfl⟩
        simp only [hlk, decide_eq_true_eq]
        exact hne
    rw [List.mem_append]
    simp only [hlk, hv, Option.isSome_some, true_and, Option.some.injEq]
    constructor
    · intro hno
      by_contra hwv
      exact hno (Or.inr (hrem2.mpr (fun h => hwv h.symm)))
    · rintro rfl h
      rcases h with h | h
      · exact hrem1 h
      · exact absurd rfl (hrem2.mp h)

/-- C4 witness (spec scenario P5): from config `{a: A, b: B}` with routers
cached for `a` and `b`, reloading to `{a: A, b: B'}` leaves the router
cache holding only `a`. -/
theorem C4_witness :
    (([("a", entryA), ("b", entryB)].map Prod.fst).Nodup) ∧
    (∀ p ∈ [("a", (0 : Nat)), ("b", 1)],
      containsKey [("a", entryA), ("b", entryB)] p.1 = true) ∧
    (reloadConfig { config := [("a", entryA), ("b", entryB)],
                    routers := [("a", 0), ("b", 1)] }
        (some [("a", entryA), ("b", entryB2)])).routers =
      [("a", 0), ("b", 1)].filter (fun p =>
        decide ((lookupKey [("a", entryA), ("b", entryB2)] p.1).isSome ∧
          lookupKey [("a", entryA), ("b", entryB2)] p.1 =
            lookupKey [("a", entryA), ("b", entryB)] p.1)) ∧
    (reloadConfig { config := [("a", entryA), ("b", entryB)],
                    routers := [("a", 0), ("b", 1)] }
        (some [("a", entryA), ("b", entryB2)])).routers = [("a", 0)] :=
  ⟨by decide, by decide,
    C4_reload_eviction
      { config := [("a", entryA), ("b", entryB)], routers := [("a", 0), ("b", 1)] }
      [("a", entryA), ("b", entryB2)] (by decide) (by decide),
    by decide⟩

end Mcpgate
